import Mathlib

set_option autoImplicit false

/-!
Verification of the Blog_NoSQL migration core against its specification.

The repository is a blog application migrated from MongoDB to Cassandra in
four phases.  The data model is embedded from `src/backend/STRUCTURE.md`
(posts with embedded comments) and the migration guide; the frontend
behaviour is embedded from `src/frontend/src/App.js`.  The backend Python
files (`app_mongodb.py`, `app_dual_write.py`, `migrate_to_cassandra.py`,
`app_cassandra_read.py`, `app_cassandra.py`) are referenced by the
repository documentation but are not present in the source tree, so the
coordinator, migrator, read router and phase controller are modelled from
the specification, as marked on each definition.
-/

namespace BlogNoSQL

/-- A comment embedded in a post: it has only a commenter reference and a
text, no identity of its own (`src/backend/STRUCTURE.md`, collection
`posts`, field `comments`). -/
structure Comment where
  user_id : String
  content : String
deriving DecidableEq, Repr

/-- A post document with denormalized author name and an ordered list of
embedded comments (`src/backend/STRUCTURE.md`, collection `posts`).
Timestamps are modelled as natural numbers. -/
structure Post where
  id : String
  user_id : String
  user_name : String
  content : String
  created_at : Nat
  comments : List Comment
deriving DecidableEq, Repr

/-- Error taxonomy of the store interface, from spec section 7. -/
inductive StoreErr where
  | notFound
  | translationError
  | storeUnavailable
  | conflictingWrite
deriving DecidableEq, Repr

/-- Modelled from the spec: the Phase Controller lives in the backend apps
(`app_mongodb.py`, `app_dual_write.py`, `app_cassandra_read.py`,
`app_cassandra.py`), which are not under the source tree.  The four
operating modes follow spec section 4.5 and the migration guide's phases. -/
inductive Phase where
  | sourceOnly
  | dualWrite
  | dualReadFallback
  | destinationOnly
deriving DecidableEq, Repr, Fintype

/-- Numbering of the phases, in migration order. -/
def Phase.idx : Phase → Nat
  | .sourceOnly => 0
  | .dualWrite => 1
  | .dualReadFallback => 2
  | .destinationOnly => 3

/-- The next phase in migration order, if any. -/
def Phase.next : Phase → Option Phase
  | .sourceOnly => some .dualWrite
  | .dualWrite => some .dualReadFallback
  | .dualReadFallback => some .destinationOnly
  | .destinationOnly => none

/-- An explicit operator action on the Phase Controller: advance to the
next phase, or roll back to a named phase. -/
inductive OperatorAction where
  | advance
  | rollbackTo (target : Phase)
deriving DecidableEq, Repr, Fintype

/-- Modelled from the spec: phase changes happen only through an explicit
operator action (spec section 4.5; the migration guide's "Migration Steps"
and "Rollback Procedures").  `advance` moves to the next phase; a rollback
is legal exactly when its target is a lower-numbered phase. -/
def phaseStep (p : Phase) : OperatorAction → Option Phase
  | .advance => p.next
  | .rollbackTo q => if q.idx < p.idx then some q else none

/-- Modelled from the spec: `app_dual_write.py` is not under the source
tree.  Coordinator state during the dual-write phase: the authoritative
source store, the destination store, and the queue of destination
failures recorded for reconciliation. -/
structure CoordState (Src Dst : Type) where
  src : Src
  dst : Dst
  pendingReconciliation : List StoreErr
deriving DecidableEq

/-- Modelled from the spec (section 4.2; `app_dual_write.py` is not under
the source tree): in the dual-write phase a mutation is applied to the
source first; a source failure propagates to the caller.  On source
success the destination write is attempted; a destination failure is
recorded for reconciliation while the operation still succeeds, and the
already-applied source write is kept, never rolled back. -/
def dualWriteApply {Src Dst : Type}
    (writeSrc : Src → Except StoreErr Src)
    (writeDst : Dst → Except StoreErr Dst)
    (st : CoordState Src Dst) : Except StoreErr (CoordState Src Dst) :=
  match writeSrc st.src with
  | .error e => .error e
  | .ok newSrc =>
    match writeDst st.dst with
    | .ok newDst =>
      .ok { src := newSrc, dst := newDst,
            pendingReconciliation := st.pendingReconciliation }
    | .error e =>
      .ok { src := newSrc, dst := st.dst,
            pendingReconciliation := st.pendingReconciliation ++ [e] }

/-- C1: in the dual-write phase, if the source write succeeds and the
destination write then fails, the operation is still reported successful
to the caller, the destination failure is appended to the reconciliation
queue, and the successful source write is kept — never rolled back. -/
theorem dualWrite_destination_failure_swallowed {Src Dst : Type}
    (writeSrc : Src → Except StoreErr Src)
    (writeDst : Dst → Except StoreErr Dst)
    (st : CoordState Src Dst) (newSrc : Src) (e : StoreErr)
    (hs : writeSrc st.src = .ok newSrc)
    (hd : writeDst st.dst = .error e) :
    dualWriteApply writeSrc writeDst st =
      .ok { src := newSrc, dst := st.dst,
            pendingReconciliation := st.pendingReconciliation ++ [e] } := by
  simp [dualWriteApply, hs, hd]

/-- Witness for C1 at a concrete coordinator state: source write succeeds
(counter 0 becomes 1), destination write fails with `storeUnavailable`. -/
theorem dualWrite_destination_failure_swallowed_witness :
    dualWriteApply (fun n : Nat => .ok (n + 1))
        (fun _ : Nat => .error .storeUnavailable)
        ⟨0, 7, []⟩ =
      .ok ⟨1, 7, [.storeUnavailable]⟩ :=
  dualWrite_destination_failure_swallowed
    (fun n : Nat => .ok (n + 1)) (fun _ : Nat => .error .storeUnavailable)
    ⟨0, 7, []⟩ 1 .storeUnavailable rfl rfl

/-- C2: the Phase Controller is a four-state machine in which some operator
action reaches state `q` from state `p` exactly when `q` is the next phase
or any lower-numbered phase, and an explicit rollback to a lower-numbered
phase is always legal. -/
theorem phaseController_transitions :
    (∀ p q : Phase,
        (∃ a : OperatorAction, phaseStep p a = some q) ↔
          (q.idx = p.idx + 1 ∨ q.idx < p.idx)) ∧
    (∀ p q : Phase, q.idx < p.idx → phaseStep p (.rollbackTo q) = some q) := by
  decide

/-- Witness for C2: rolling back from `destinationOnly` to `sourceOnly` is
legal. -/
theorem phaseController_transitions_witness :
    Phase.sourceOnly.idx < Phase.destinationOnly.idx ∧
      phaseStep .destinationOnly (.rollbackTo .sourceOnly) =
        some .sourceOnly :=
  ⟨by decide, phaseController_transitions.2 .destinationOnly .sourceOnly (by decide)⟩

/-- A key of a destination (Cassandra) projection table, from the
migration guide's schema: the table name, the partition key value, and the
post id identifying the row inside the partition. -/
structure ProjKey where
  table : String
  partitionKey : String
  postId : String
deriving DecidableEq, Repr

/-- The content-prefix bucket: the first letter of the post body
(`posts_by_content` is partitioned by first letter). -/
def contentBucket (p : Post) : String :=
  p.content.take 1

/-- The date bucket: the creation day of the post (`posts` is partitioned
by created_date). -/
def createdDate (p : Post) : Nat :=
  p.created_at / 86400

/-- Modelled from the spec (section 4.1; the Schema Translator lives in
the backend apps, not under the source tree): one post fans out into one
full-content record per access-pattern table of the migration guide's
Cassandra schema, each regenerated in full from the post's current
state. -/
def project (p : Post) : List (ProjKey × Post) :=
  [(⟨"posts_by_id", p.id, p.id⟩, p),
   (⟨"posts", toString (createdDate p), p.id⟩, p),
   (⟨"posts_by_author", p.user_id, p.id⟩, p),
   (⟨"posts_by_content", contentBucket p, p.id⟩, p),
   (⟨"comments", p.id, p.id⟩, p)]

/-- Modelled from the spec (section 4.1): the set of destination keys to
remove when a post is deleted, derived from the same fields as the
projections. -/
def tombstone (p : Post) : List ProjKey :=
  (project p).map Prod.fst

/-- The destination store: each projection table row is addressed by its
key (a keyed store holds at most one row per key), plus the per-author
post counter table. -/
structure Dest where
  projections : ProjKey → Option Post
  authorPostCounts : String → Int

/-- Full-row upsert into the keyed projection tables. -/
def upsertProj (m : ProjKey → Option Post) (k : ProjKey) (v : Post) :
    ProjKey → Option Post :=
  fun q => if q = k then some v else m q

/-- Replay a list of translated records into the projection tables by
upserting each in order. -/
def replayRecords (recs : List (ProjKey × Post)) (m : ProjKey → Option Post) :
    ProjKey → Option Post :=
  recs.foldl (fun acc kv => upsertProj acc kv.1 kv.2) m

/-- The per-author post counts derived from a full source snapshot. -/
def countsOfSource (src : List Post) : String → Int :=
  fun a => ((src.filter (fun p => p.user_id == a)).length : Int)

/-- The empty destination store. -/
def emptyDest : Dest :=
  { projections := fun _ => none, authorPostCounts := fun _ => 0 }

/-- Modelled from the spec (section 4.3; `migrate_to_cassandra.py` is not
under the source tree): the Bulk Migrator optionally clears the
destination first (`--clear`), then streams every source post through the
Schema Translator and upserts the resulting full records, and derives the
per-author counters from the full source snapshot. -/
def migrate (clear : Bool) (src : List Post) (d : Dest) : Dest :=
  { projections :=
      replayRecords (src.flatMap project)
        (if clear then fun _ => none else d.projections),
    authorPostCounts := countsOfSource src }

/-- The last record written to key `k` by a record sequence, if any. -/
def lastWriteOf (recs : List (ProjKey × Post)) (k : ProjKey) : Option Post :=
  match recs with
  | [] => none
  | kv :: rest =>
    match lastWriteOf rest k with
    | some v => some v
    | none => if kv.1 = k then some kv.2 else none

/-- Replaying a record sequence leaves each key holding the last record
written to it, and keys never written untouched. -/
theorem replayRecords_eq_lastWrite (recs : List (ProjKey × Post))
    (m : ProjKey → Option Post) (k : ProjKey) :
    replayRecords recs m k =
      match lastWriteOf recs k with
      | some v => some v
      | none => m k := by
  induction recs generalizing m with
  | nil => rfl
  | cons kv rest ih =>
    show replayRecords rest (upsertProj m kv.1 kv.2) k = _
    rw [ih]
    cases h : lastWriteOf rest k with
    | some v => simp [lastWriteOf, h]
    | none =>
      by_cases hk : kv.1 = k
      · subst hk
        simp [lastWriteOf, h, upsertProj]
      · simp [lastWriteOf, h, upsertProj, hk, Ne.symm hk]

/-- Replaying the same record sequence a second time changes nothing. -/
theorem replayRecords_idem (recs : List (ProjKey × Post))
    (m : ProjKey → Option Post) :
    replayRecords recs (replayRecords recs m) = replayRecords recs m := by
  funext k
  rw [replayRecords_eq_lastWrite, replayRecords_eq_lastWrite]
  cases lastWriteOf recs k <;> rfl

/-- C3: the Bulk Migrator is idempotent — running it with clear on the
same source snapshot yields identical destination contents regardless of
the prior destination, and re-running it without clear on an
already-fully-migrated destination leaves the destination (projections
and counters) unchanged. -/
theorem bulkMigrator_idempotent (src : List Post) (d1 d2 : Dest) :
    migrate true src d1 = migrate true src d2 ∧
      migrate false src (migrate true src d1) = migrate true src d1 := by
  constructor
  · rfl
  · simp [migrate, replayRecords_idem]

/-- The origin tag attached to a routed read result. -/
inductive Origin where
  | destination
  | source
deriving DecidableEq, Repr

/-- Modelled from the spec (section 4.4; `app_cassandra_read.py` and
`app_cassandra.py` are not under the source tree): the Read Router takes
the outcome each store would produce for the query and routes by phase.
In the fallback-enabled phase it tries the destination first and falls
back to the source on any error; in the destination-only phase a
destination failure is surfaced unchanged; before read cutover only the
source is consulted. -/
def readRoute (phase : Phase) (destRead srcRead : Except StoreErr Post) :
    Except StoreErr (Post × Origin) :=
  match phase with
  | .sourceOnly | .dualWrite =>
    match srcRead with
    | .ok v => .ok (v, .source)
    | .error e => .error e
  | .dualReadFallback =>
    match destRead with
    | .ok v => .ok (v, .destination)
    | .error _ =>
      match srcRead with
      | .ok v => .ok (v, .source)
      | .error e => .error e
  | .destinationOnly =>
    match destRead with
    | .ok v => .ok (v, .destination)
    | .error e => .error e

/-- C4: in the fallback-enabled phase the Read Router answers from the
destination when it succeeds, and on any destination error (including
not-found) returns the source store's answer tagged with its source
origin; in the destination-only phase every destination failure — in
particular a genuine not-found absence — propagates to the caller with no
fallback. -/
theorem readRouter_fallback_policy :
    (∀ (v : Post) (s : Except StoreErr Post),
        readRoute .dualReadFallback (.ok v) s = .ok (v, .destination)) ∧
    (∀ (e : StoreErr) (v : Post),
        readRoute .dualReadFallback (.error e) (.ok v) = .ok (v, .source)) ∧
    (∀ (e e2 : StoreErr),
        readRoute .dualReadFallback (.error e) (.error e2) = .error e2) ∧
    (∀ (e : StoreErr) (s : Except StoreErr Post),
        readRoute .destinationOnly (.error e) s = .error e) ∧
    (∀ (s : Except StoreErr Post),
        readRoute .destinationOnly (.error .notFound) s =
          .error .notFound) :=
  ⟨fun _ _ => rfl, fun _ _ => rfl, fun _ _ => rfl, fun _ _ => rfl,
   fun _ => rfl⟩

/-- A mutating operation of the blog backend, from spec section 4.2:
create, update or delete of a post (comment changes are modelled there as
full-post updates). -/
inductive WriteOp where
  | createPost (p : Post)
  | updatePost (p : Post)
  | deletePost (p : Post)
deriving DecidableEq, Repr

/-- Pointwise update of the per-author counter table. -/
def bumpCounter (c : String → Int) (a : String) (delta : Int) :
    String → Int :=
  fun x => if x = a then c x + delta else c x

/-- Modelled from the spec (sections 3 and 4.2; the backend apps are not
under the source tree): one mutating operation applied to the destination
store.  A create upserts the post's projections and increments the
author's post counter exactly once; an update regenerates the projections
and leaves the counters alone; a delete removes the tombstone keys and
decrements the author's counter exactly once. -/
def applyWriteDest (d : Dest) : WriteOp → Dest
  | .createPost p =>
    { projections := replayRecords (project p) d.projections,
      authorPostCounts := bumpCounter d.authorPostCounts p.user_id 1 }
  | .updatePost p =>
    { projections := replayRecords (project p) d.projections,
      authorPostCounts := d.authorPostCounts }
  | .deletePost p =>
    { projections := fun k => if k ∈ tombstone p then none else d.projections k,
      authorPostCounts := bumpCounter d.authorPostCounts p.user_id (-1) }

/-- Applying a sequence of mutating operations in order. -/
def applyWrites (d : Dest) (ops : List WriteOp) : Dest :=
  ops.foldl applyWriteDest d

/-- The number of post creations for a given author in an operation
sequence. -/
def createsFor (a : String) : List WriteOp → Nat
  | [] => 0
  | .createPost p :: rest => (if p.user_id = a then 1 else 0) + createsFor a rest
  | _ :: rest => createsFor a rest

/-- The number of post deletions for a given author in an operation
sequence. -/
def deletesFor (a : String) : List WriteOp → Nat
  | [] => 0
  | .deletePost p :: rest => (if p.user_id = a then 1 else 0) + deletesFor a rest
  | _ :: rest => deletesFor a rest

/-- Each operation moves an author's counter by exactly its own
contribution: plus one per create by that author, minus one per delete by
that author, untouched otherwise. -/
theorem applyWrites_counter (a : String) (ops : List WriteOp) (d : Dest) :
    (applyWrites d ops).authorPostCounts a =
      d.authorPostCounts a + (createsFor a ops : Int) -
        (deletesFor a ops : Int) := by
  induction ops generalizing d with
  | nil => simp [applyWrites, createsFor, deletesFor]
  | cons op rest ih =>
    rw [show applyWrites d (op :: rest) = applyWrites (applyWriteDest d op) rest
          from rfl, ih]
    cases op with
    | createPost p =>
      by_cases hp : p.user_id = a
      · subst hp
        simp [applyWriteDest, bumpCounter, createsFor, deletesFor]
        ring
      · simp [applyWriteDest, bumpCounter, createsFor, deletesFor, hp,
          Ne.symm hp]
    | updatePost p =>
      simp [applyWriteDest, createsFor, deletesFor]
    | deletePost p =>
      by_cases hp : p.user_id = a
      · subst hp
        simp [applyWriteDest, bumpCounter, createsFor, deletesFor]
        ring
      · simp [applyWriteDest, bumpCounter, createsFor, deletesFor, hp,
          Ne.symm hp]

/-- C5: after any operation sequence that creates N posts and deletes M of
them (M ≤ N) for a given author, starting from the empty destination, the
author's counter record equals N - M, the counter having moved up exactly
once per create and down exactly once per delete. -/
theorem authorCounter_invariant (ops : List WriteOp) (a : String)
    (h : deletesFor a ops ≤ createsFor a ops) :
    (applyWrites emptyDest ops).authorPostCounts a =
      (createsFor a ops : Int) - (deletesFor a ops : Int) := by
  rw [applyWrites_counter]
  simp [emptyDest]

/-- A concrete post by author u1, used by the witnesses. -/
def postA : Post :=
  { id := "p1", user_id := "u1", user_name := "alice",
    content := "hello world", created_at := 100000, comments := [] }

/-- A second concrete post by author u1, used by the witnesses. -/
def postB : Post :=
  { id := "p2", user_id := "u1", user_name := "alice",
    content := "more words", created_at := 200000, comments := [] }

/-- Witness for C5: create two posts for u1, delete one — the counter
record ends at 2 - 1. -/
theorem authorCounter_invariant_witness :
    deletesFor "u1" [.createPost postA, .createPost postB, .deletePost postA] ≤
      createsFor "u1"
        [.createPost postA, .createPost postB, .deletePost postA] ∧
    (applyWrites emptyDest
        [.createPost postA, .createPost postB,
         .deletePost postA]).authorPostCounts "u1" =
      (createsFor "u1"
          [.createPost postA, .createPost postB, .deletePost postA] : Int) -
        (deletesFor "u1"
          [.createPost postA, .createPost postB, .deletePost postA] : Int) :=
  ⟨by decide,
   authorCounter_invariant
     [.createPost postA, .createPost postB, .deletePost postA] "u1"
     (by decide)⟩

/-- Comment append as documented in `src/backend/STRUCTURE.md` ("Add
Comment to Post"): the update pushes the new comment onto the end of the
post's embedded comments array. -/
def addComment (p : Post) (c : Comment) : Post :=
  { p with comments := p.comments ++ [c] }

/-- C6: comment append is order-preserving — appending C1 then C2 to a
post yields a comment sequence equal to the old one followed by [C1, C2],
for distinct comments never the swapped [C2, C1], and every projection
record of the post carries the comment sequence in exactly that source
order. -/
theorem commentAppend_order_preserving (p : Post) (c1 c2 : Comment)
    (h : c1 ≠ c2) :
    (addComment (addComment p c1) c2).comments = p.comments ++ [c1, c2] ∧
    (addComment (addComment p c1) c2).comments ≠ p.comments ++ [c2, c1] ∧
    ((project (addComment (addComment p c1) c2)).map
        (fun kv => kv.2.comments)).all
      (fun cs => cs == p.comments ++ [c1, c2]) := by
  refine ⟨by simp [addComment], ?_, ?_⟩
  · intro heq
    have h2 : p.comments ++ ([c1] ++ [c2]) = p.comments ++ [c2, c1] := by
      simpa [addComment, List.append_assoc] using heq
    have h3 := List.append_cancel_left h2
    simp at h3
    exact h h3.1
  · simp [project, addComment]

/-- A concrete first comment, used by the C6 witness. -/
def commentC1 : Comment := { user_id := "u2", content := "first" }

/-- A concrete second comment, used by the C6 witness. -/
def commentC2 : Comment := { user_id := "u2", content := "second" }

/-- Witness for C6 at a concrete post and two distinct comments. -/
theorem commentAppend_order_preserving_witness :
    commentC1 ≠ commentC2 ∧
      ((addComment (addComment postA commentC1) commentC2).comments =
          postA.comments ++ [commentC1, commentC2] ∧
        (addComment (addComment postA commentC1) commentC2).comments ≠
          postA.comments ++ [commentC2, commentC1] ∧
        ((project (addComment (addComment postA commentC1) commentC2)).map
            (fun kv => kv.2.comments)).all
          (fun cs => cs == postA.comments ++ [commentC1, commentC2])) :=
  ⟨by decide,
   commentAppend_order_preserving postA commentC1 commentC2 (by decide)⟩

/-- From App.js line 5: the backend base URL. -/
def API_URL : String := "http://localhost:5000/api"

/-- A minimal JavaScript value model for the frontend embedding: only what
the delete-comment path of App.js manipulates — strings, numbers, and the
undefined value a missing property or argument produces. -/
inductive JsVal where
  | undefined
  | str (s : String)
  | num (n : Nat)
deriving DecidableEq, Repr

/-- JavaScript string interpolation of a value inside a template literal:
the undefined value prints as the text undefined. -/
def JsVal.interp : JsVal → String
  | .undefined => "undefined"
  | .str s => s
  | .num n => toString n

/-- From App.js lines 114-124: handleDeleteComment(postId, commentIndex)
issues DELETE on this URL once the confirmation dialog is accepted. -/
def deleteCommentUrl (postId commentIndex : JsVal) : String :=
  API_URL ++ "/posts/" ++ postId.interp ++ "/comments/" ++ commentIndex.interp

/-- A fetched comment object as the backend serves it: an embedded comment
carries only user_id and content (`src/backend/STRUCTURE.md`). -/
structure JsComment where
  user_id : String
  content : String
deriving DecidableEq, Repr

/-- JavaScript property access comment.id on a fetched comment object: the
served object has no id property, so the access yields undefined. -/
def JsComment.idProp (_ : JsComment) : JsVal :=
  .undefined

/-- From App.js line 347: the comment delete button's onClick invokes
handleDeleteComment with the single argument comment.id, so the postId
parameter receives comment.id and the commentIndex parameter receives
undefined. -/
def deleteButtonClickUrl (c : JsComment) : String :=
  deleteCommentUrl c.idProp .undefined

/-- C7 (code evaluated at the failing input): the delete button's click on
any fetched comment issues DELETE on .../posts/undefined/comments/undefined
— not the documented .../posts/postId/comments/index — while the handler
itself, given a post id and a positional index, does build the documented
URL shape. -/
theorem deleteCommentClick_sends_undefined :
    deleteButtonClickUrl { user_id := "u2", content := "nice" } =
      API_URL ++ "/posts/undefined/comments/undefined" ∧
    deleteCommentUrl (.str "p1") (.num 0) =
      API_URL ++ "/posts/p1/comments/0" := by
  decide

/-- From App.js lines 218-222: the values of the five sort options offered
by the UI select control. -/
def sortOptionValues : List String :=
  ["latest", "oldest", "content", "author", "comments"]

/-- From App.js line 36: fetchData requests the posts with the selected
sort value as the sort query parameter. -/
def fetchPostsUrl (sortBy : String) : String :=
  API_URL ++ "/posts?sort=" ++ sortBy

/-- The Read Router query shape names as the spec lists them (section 6). -/
def readRouterQueryShapes : List String :=
  ["latest", "oldest", "by-content", "by-author", "by-comment-count"]

/-- The sort parameter values the repository documents (README, Query
Parameters section). -/
def documentedSortParams : List String :=
  ["latest", "oldest", "content", "author", "comments"]

/-- C8 counterexample: the UI option content is offered, but the URL it
issues carries sort=content, which is none of the URLs built from the five
Read Router query shape names — so the claim fails at this option. -/
theorem sortParam_not_a_queryShape :
    "content" ∈ sortOptionValues ∧
      ((readRouterQueryShapes.map
            (fun shape => API_URL ++ "/posts?sort=" ++ shape)).contains
          (fetchPostsUrl "content")) = false := by
  decide

/-- C8 amended: every sort selection offered by the UI issues a request
whose sort query parameter is the option's own value, one of the
documented parameter values latest, oldest, content, author, comments
(which the HTTP layer then translates into a Read Router query shape). -/
theorem sortOptions_documented (s : String) (h : s ∈ sortOptionValues) :
    fetchPostsUrl s = API_URL ++ "/posts?sort=" ++ s ∧
      s ∈ documentedSortParams :=
  ⟨rfl, by simpa [documentedSortParams, sortOptionValues] using h⟩

/-- Witness for the amended C8 at the option content. -/
theorem sortOptions_documented_witness :
    "content" ∈ sortOptionValues ∧
      (fetchPostsUrl "content" = API_URL ++ "/posts?sort=" ++ "content" ∧
        "content" ∈ documentedSortParams) :=
  ⟨by decide, sortOptions_documented "content" (by decide)⟩

/-- From App.js: every identifier bound in scope inside the App component
— the imports, the module constant, the component itself, the state
variables and setters of the thirteen useState calls, the handler
functions — plus the browser globals the file touches. -/
def appScopeIdentifiers : List String :=
  ["React", "useState", "useEffect", "axios", "API_URL", "App",
   "posts", "setPosts", "users", "setUsers",
   "selectedPost", "setSelectedPost",
   "expandedComments", "setExpandedComments",
   "loading", "setLoading", "error", "setError",
   "showPostForm", "setShowPostForm",
   "showCommentForm", "setShowCommentForm",
   "editingPost", "setEditingPost",
   "currentUser", "setCurrentUser", "sortBy", "setSortBy",
   "postFormData", "setPostFormData",
   "commentFormData", "setCommentFormData",
   "fetchData", "toggleComments", "handlePostSubmit",
   "handleCommentSubmit", "handleEditPost", "handleDeletePost",
   "handleDeleteComment", "handleCancelPost",
   "window", "console", "alert", "Promise", "Date"]

/-- Evaluating an identifier in JavaScript: a name bound in no enclosing
scope raises a ReferenceError. -/
def evalIdent (scope : List String) (x : String) : Except String Unit :=
  if x ∈ scope then .ok () else
    .error ("ReferenceError: " ++ x ++ " is not defined")

/-- C9 (code evaluated at the failing input): the post card's onClick
(App.js line 235) evaluates the identifier viewPost in a scope holding
only the App bindings plus the map variable post, and raises a
ReferenceError because viewPost is bound nowhere; the detail view's
comments section (lines 298 and 335-338) likewise evaluates the unbound
identifier comments. -/
theorem postCardClick_reference_error :
    evalIdent (appScopeIdentifiers ++ ["post"]) "viewPost" =
      .error "ReferenceError: viewPost is not defined" ∧
    evalIdent appScopeIdentifiers "comments" =
      .error "ReferenceError: comments is not defined" :=
  ⟨rfl, rfl⟩

/-- The externally visible effects a delete handler can produce, in
order. -/
inductive UiEffect where
  | confirmPrompt (message : String)
  | httpDelete (url : String)
  | refetch
deriving DecidableEq, Repr

/-- The fetched frontend state the delete handlers can replace: the posts
and users lists installed by fetchData. -/
structure UiState where
  posts : List Post
  users : List String
deriving DecidableEq, Repr

/-- From App.js lines 102-112: handleDeletePost shows the confirmation
dialog first; only when the user accepts does it issue the HTTP DELETE
and refetch (installing the freshly fetched state); on decline nothing
further happens.  answer is the user's response to the dialog and fetched
the state a refetch would install. -/
def handleDeletePost (answer : Bool) (id : String) (fetched st : UiState) :
    List UiEffect × UiState :=
  if answer then
    ([.confirmPrompt "Are you sure you want to delete this post?",
      .httpDelete (API_URL ++ "/posts/" ++ id), .refetch], fetched)
  else
    ([.confirmPrompt "Are you sure you want to delete this post?"], st)

/-- From App.js lines 114-124: handleDeleteComment shows the confirmation
dialog first; only when the user accepts does it issue the HTTP DELETE on
the comment URL and refetch; on decline nothing further happens. -/
def handleDeleteComment (answer : Bool) (postId commentIndex : JsVal)
    (fetched st : UiState) : List UiEffect × UiState :=
  if answer then
    ([.confirmPrompt "Are you sure you want to delete this comment?",
      .httpDelete (deleteCommentUrl postId commentIndex), .refetch], fetched)
  else
    ([.confirmPrompt "Are you sure you want to delete this comment?"], st)

/-- C10: both delete handlers always put the confirmation dialog first,
and when the user declines it the produced effects are the dialog alone —
no HTTP request — and the fetched posts and users state is returned
unchanged. -/
theorem deleteConfirmation_guard :
    (∀ (id : String) (fetched st : UiState),
        handleDeletePost false id fetched st =
          ([.confirmPrompt "Are you sure you want to delete this post?"],
            st)) ∧
    (∀ (pid cidx : JsVal) (fetched st : UiState),
        handleDeleteComment false pid cidx fetched st =
          ([.confirmPrompt "Are you sure you want to delete this comment?"],
            st)) ∧
    (∀ (answer : Bool) (id : String) (fetched st : UiState),
        (handleDeletePost answer id fetched st).1.head? =
          some (.confirmPrompt
            "Are you sure you want to delete this post?")) ∧
    (∀ (answer : Bool) (pid cidx : JsVal) (fetched st : UiState),
        (handleDeleteComment answer pid cidx fetched st).1.head? =
          some (.confirmPrompt
            "Are you sure you want to delete this comment?")) := by
  refine ⟨fun _ _ _ => rfl, fun _ _ _ _ => rfl,
    fun answer id fetched st => ?_, fun answer pid cidx fetched st => ?_⟩ <;>
    cases answer <;> rfl

end BlogNoSQL
